import Mathlib

/-!
Shallow embedding of the RDP command processor of `src/rdp/rdp.rs`
(crate r64emu): multi-word command assembly, opcode dispatch, bit-field
decode into register state, the Load Tile tmem copy, and the policy of the
two rectangle-drawing commands.  External collaborators (bus memory, the
raster routines, the pixel pipeline) are modelled as recorded effects, and
Rust panics as returned fault values.
-/

namespace R64

/-- `bit_field::get_bits(lo..hi)`: bits `lo` (inclusive) to `hi` (exclusive). -/
def getBits (x lo hi : Nat) : Nat := (x >>> lo) % 2 ^ (hi - lo)

/-- `bit_field::get_bit(i)`. -/
def getBit (x i : Nat) : Bool := x.testBit i

/-- Reinterpret the low 16 bits as a signed `i16` (`as i16` cast). -/
def toI16 (n : Nat) : Int :=
  if n % 65536 < 32768 then (n % 65536 : Int) else (n % 65536 : Int) - 65536

/-- Wrapping 32-bit subtraction (release-mode `u32` subtraction). -/
def sub32 (a b : Nat) : Nat := (a % 4294967296 + (4294967296 - b % 4294967296)) % 4294967296

/-- Wrapping 64-bit subtraction (release-mode `usize` subtraction). -/
def sub64 (a b : Nat) : Nat :=
  (a % 18446744073709551616 + (18446744073709551616 - b % 18446744073709551616)) %
    18446744073709551616

/-- Modelled from the spec: the enumerated pixel format `DpColorFormat`
declared in the rdp module root, which is not under `src/`; §4.2 says the
3-bit field either matches an enumerated format or is substituted by the
default RGBA format. -/
inductive DpColorFormat
  | rgba
  | yuv
  | colorIndex
  | intensityAlpha
  | intensity
deriving DecidableEq, Repr

/-- Modelled from the spec: `DpColorFormat::from_bits` (rdp module root, not
under `src/`): partial decode of the 3-bit hardware color-format code. -/
def DpColorFormat.fromBits (bits : Nat) : Option DpColorFormat :=
  match bits with
  | 0 => some .rgba
  | 1 => some .yuv
  | 2 => some .colorIndex
  | 3 => some .intensityAlpha
  | 4 => some .intensity
  | _ => none

/-- `Rdp::parse_color_format`: unknown codes are recoverable and decode to
the default RGBA format. -/
def parseColorFormat (bits : Nat) : DpColorFormat :=
  (DpColorFormat.fromBits bits).getD .rgba

/-- `CycleMode` (rdp module root); the four values decoded by Set Other Modes. -/
inductive CycleMode
  | one
  | two
  | copy
  | fill
deriving DecidableEq, Repr

/-- A fixed-point point: raw bits of the two coordinates (U30F2 ⇒ 2
fractional bits, one pixel = 4 raw units). -/
structure QPoint where
  x : Nat
  y : Nat
deriving DecidableEq, Repr

/-- `Rect<U30F2>`: corner points `c0` (top-left) and `c1` (bottom-right),
raw fixed-point bits. -/
structure QRect where
  c0 : QPoint
  c1 : QPoint
deriving DecidableEq, Repr

/-- `Rect::from_bits(x0, y0, x1, y1)`. -/
def QRect.fromBits (x0 y0 x1 y1 : Nat) : QRect := ⟨⟨x0, y0⟩, ⟨x1, y1⟩⟩

/-- `rect.width()`: `c1.x - c0.x` in raw bits. -/
def QRect.width (r : QRect) : Nat := sub32 r.c1.x r.c0.x

/-- `rect.height()`: `c1.y - c0.y` in raw bits. -/
def QRect.height (r : QRect) : Nat := sub32 r.c1.y r.c0.y

/-- `q.floor()` for a U30F2 value: drop the 2 fractional bits. -/
def qFloor (v : Nat) : Nat := v / 4

/-- `Q::from_int`: integer to U30F2 raw bits. -/
def qFromInt (n : Nat) : Nat := n * 4

/-- `rect.set_width(w)`: `c1.x := c0.x + w`. -/
def QRect.setWidth (r : QRect) (w : Nat) : QRect :=
  { r with c1 := { r.c1 with x := r.c0.x + w } }

/-- `rect.set_height(h)`: `c1.y := c0.y + h`. -/
def QRect.setHeight (r : QRect) (h : Nat) : QRect :=
  { r with c1 := { r.c1 with y := r.c0.y + h } }

/-- `rect.truncate().cast::<U30F2>()`: clear the fractional bits of all four
coordinates. -/
def QRect.trunc (r : QRect) : QRect :=
  ⟨⟨r.c0.x / 4 * 4, r.c0.y / 4 * 4⟩, ⟨r.c1.x / 4 * 4, r.c1.y / 4 * 4⟩⟩

/-- `ImageFormat` (rdp.rs): decoded Set Color/Texture Image state. -/
structure ImageFormat where
  colorFormat : DpColorFormat
  bpp : Nat
  width : Nat
  dramAddr : Nat
deriving DecidableEq, Repr

/-- `ImageFormat::default()` (all-zero fields, default color format). -/
def ImageFormat.default : ImageFormat := ⟨.rgba, 0, 0, 0⟩

instance : Inhabited ImageFormat := ⟨ImageFormat.default⟩

/-- `ImageFormat::pitch`: `width * bpp / 8`. -/
def ImageFormat.pitch (f : ImageFormat) : Nat := f.width * f.bpp / 8

/-- `TileDescriptor` (rdp.rs); the two-element hardware arrays are pairs. -/
structure TileDescriptor where
  colorFormat : DpColorFormat
  bpp : Nat
  pitch : Nat
  tmemAddr : Nat
  palette : Nat
  clamp : Bool × Bool
  mirror : Bool × Bool
  mask : Nat × Nat
  shift : Nat × Nat
  rect : QRect
deriving DecidableEq, Repr

/-- `TileDescriptor::default()`. -/
def TileDescriptor.default : TileDescriptor :=
  ⟨.rgba, 0, 0, 0, 0, (false, false), (false, false), (0, 0), (0, 0),
    QRect.fromBits 0 0 0 0⟩

instance : Inhabited TileDescriptor := ⟨TileDescriptor.default⟩

/-- Modelled from the spec: the pixel-pipeline collaborator (§6) purely
accepts forwarded raw state; we record the last words forwarded to it. -/
structure Pipeline where
  otherModes : Nat
  combineMode : Nat
  blendColor : Nat
deriving DecidableEq, Repr

/-- `PixelPipeline::new()`: no words forwarded yet. -/
def Pipeline.new : Pipeline := ⟨0, 0, 0⟩

/-- The register/state machine of `Rdp` (rdp.rs).  `tmem` and `cmdbuf` are
byte- resp. word-indexed functions (`Box<[u8]>` of 4096 bytes, `[u64; 16]`). -/
structure Rdp where
  tmem : Nat → Nat
  clip : QRect
  fb : ImageFormat
  tex : ImageFormat
  tiles : List TileDescriptor
  fillColor : Nat
  cycleMode : CycleMode
  pipeline : Pipeline
  cmdbuf : Nat → Nat
  cmdlen : Nat

/-- `Rdp::new`. -/
def Rdp.new : Rdp where
  tmem := fun _ => 0
  clip := QRect.fromBits 0 0 0 0
  fb := ImageFormat.default
  tex := ImageFormat.default
  tiles := List.replicate 8 TileDescriptor.default
  fillColor := 0
  cycleMode := .one
  pipeline := Pipeline.new
  cmdbuf := fun _ => 0
  cmdlen := 0

/-- Array write `buf[n] = v` on a function-modelled buffer. -/
def bufWrite (buf : Nat → Nat) (n v : Nat) : Nat → Nat :=
  fun i => if i = n then v else buf i

/-- The Rust panics of `Rdp::op`, surfaced as distinct fault values. -/
inductive Fault
  | unsupportedBppCombination (dst src : Nat)
  | fillRectNotAligned
  | unimplementedMode
  | divideByZero
deriving DecidableEq, Repr

/-- Byte order of an external buffer view. -/
inductive ByteOrder
  | bigEndian
  | littleEndian
deriving DecidableEq, Repr

/-- Pixel formats a buffer view or color value is tagged with at the raster
collaborator's interface. -/
inductive PixelFmt
  | rgba8888
  | abgr8888
  | rgba5551
  | i8fmt
deriving DecidableEq, Repr

/-- Invocations of the external collaborators (raster routines on bus
memory), recorded with the exact parameters the source passes. -/
inductive Effect
  | drawRectSlopes (dstCf : DpColorFormat) (dstBpp : Nat)
      (srcCf : DpColorFormat) (srcBpp : Nat) (dstRect : QRect)
      (tmemAddr tmemPitch srcW srcH : Nat) (s t dsdx dtdy : Int)
      (fbAddr fbW fbH fbPitch : Nat)
  | loadTileCopy (fmt : PixelFmt) (bytesPerTexel copyWidth height
      tmemAddr tmemPitch texAddr texPitch : Nat)
  | fillRect (order : ByteOrder) (bufFmt : PixelFmt) (rect : QRect)
      (colorFmt : PixelFmt) (colorBits : Nat) (fbAddr fbW fbH fbPitch : Nat)
  | fillRectPP (order : ByteOrder) (bufFmt : PixelFmt) (rect : QRect)
      (colorFmt : PixelFmt) (colorBits : Nat) (fbAddr fbW fbH fbPitch : Nat)
deriving DecidableEq, Repr

/-- Result of submitting one command word: the state as mutated up to the
return (or up to the panic point), the collaborator invocations made, and
the fault if the handler panicked. -/
structure OpResult where
  st : Rdp
  effects : List Effect
  fault : Option Fault

/-- Copy one row of `n` bytes from the bus at `srcOff` into tmem at `dstOff`. -/
def copyRow (tmem bus : Nat → Nat) (dstOff srcOff n : Nat) : Nat → Nat :=
  fun i => if dstOff ≤ i ∧ i < dstOff + n then bus (srcOff + (i - dstOff)) else tmem i

/-- Modelled from the spec: the raster collaborator's generic buffer-copy
routine (`draw_rect`, not under `src/`) as used by Load Tile — §4.3 step 5:
copy `copy_width × height` texels row by row from the texture image (base
`texAddr`, pitch `texPitch`, offset by the rectangle's top-left corner
`(s0, t0)`) into tmem (base `tmemAddr`, pitch `tmemPitch`), each texel
`bpt` bytes wide. -/
def tmemCopy (tmem bus : Nat → Nat) (tmemAddr tmemPitch texAddr texPitch : Nat)
    (s0 t0 bpt copyWidth : Nat) : Nat → Nat → Nat
  | 0 => tmem
  | h + 1 =>
    copyRow (tmemCopy tmem bus tmemAddr tmemPitch texAddr texPitch s0 t0 bpt copyWidth h)
      bus (tmemAddr + h * tmemPitch) (texAddr + (t0 + h) * texPitch + s0 * bpt)
      (copyWidth * bpt)

/-- The opcodes with a handler arm in `Rdp::op` (§4.2 word-count table). -/
def handlerOps : List Nat :=
  [0x2D, 0x3D, 0x3F, 0x28, 0x2F, 0x24, 0x34, 0x35, 0x36, 0x37, 0x3C, 0x39]

/-- `Rdp::op(cmd)` (rdp.rs lines 100–380): buffer the word, read the opcode
from the first buffered word's bits 56..62, dispatch.  `bus` is the memory
collaborator's byte-addressed read view (used by Load Tile).  Arithmetic on
the missing `emu::fp` `Q` type is modelled from the spec: `Q ± int` adds or
subtracts whole pixels (`qFromInt`), `Q / int` divides the raw bits. -/
def Rdp.op (st : Rdp) (bus : Nat → Nat) (cmd : Nat) : OpResult :=
  let buf := bufWrite st.cmdbuf st.cmdlen cmd
  let st1 : Rdp := { st with cmdbuf := buf, cmdlen := st.cmdlen + 1 }
  let opc := getBits (buf 0) 56 62
  if opc = 0x2D then
    -- Set Scissor
    let clip := QRect.fromBits (getBits cmd 44 56) (getBits cmd 32 44)
      (getBits cmd 12 24) (getBits cmd 0 12)
    ⟨{ st1 with clip := clip, cmdlen := 0 }, [], none⟩
  else if opc = 0x3D ∨ opc = 0x3F then
    -- Set Color/Texture Image
    let format : ImageFormat :=
      { colorFormat := parseColorFormat (getBits cmd 53 56)
        bpp := 4 * 2 ^ getBits cmd 51 53
        width := getBits cmd 32 42 + 1
        dramAddr := getBits cmd 0 26 }
    if opc = 0x3F then ⟨{ st1 with fb := format, cmdlen := 0 }, [], none⟩
    else ⟨{ st1 with tex := format, cmdlen := 0 }, [], none⟩
  else if opc = 0x28 then
    -- Sync Tile
    ⟨{ st1 with cmdlen := 0 }, [], none⟩
  else if opc = 0x2F then
    -- Set Other Modes
    let mode := match getBits cmd 52 54 with
      | 0 => CycleMode.one
      | 1 => CycleMode.two
      | 2 => CycleMode.copy
      | _ => CycleMode.fill
    ⟨{ st1 with
        cycleMode := mode
        pipeline := { st.pipeline with otherModes := cmd }
        cmdlen := 0 }, [], none⟩
  else if opc = 0x24 then
    -- Texture rectangle (2 words)
    if st1.cmdlen ≠ 2 then ⟨st1, [], none⟩
    else
      let tile := getBits (buf 0) 24 27
      let rect := QRect.fromBits (getBits (buf 0) 12 24) (getBits (buf 0) 0 12)
        (getBits (buf 0) 44 56) (getBits (buf 0) 32 44)
      let s := toI16 (getBits (buf 1) 48 64)
      let t := toI16 (getBits (buf 1) 32 48)
      let dsdx := toI16 (getBits (buf 1) 16 32)
      let dtdy := toI16 (getBits (buf 1) 0 16)
      let td := st.tiles.getD tile default
      let srcW := qFloor td.rect.width + 1
      let srcH := qFloor td.rect.height + 1
      let w := sub32 rect.width (qFromInt 1)
      let h := sub32 rect.height (qFromInt 1)
      let rect2 := (rect.setWidth w).setHeight h
      ⟨{ st1 with cmdlen := 0 },
        [.drawRectSlopes st.fb.colorFormat st.fb.bpp td.colorFormat td.bpp rect2
          td.tmemAddr td.pitch srcW srcH s t dsdx dtdy
          st.fb.dramAddr 320 240 st.fb.pitch], none⟩
  else if opc = 0x34 then
    -- Load Tile
    let tile := getBits cmd 24 27
    let rect := QRect.fromBits (getBits cmd 44 56) (getBits cmd 32 44)
      (getBits cmd 12 24) (getBits cmd 0 12)
    -- Load_Tile also updates the internal tile rect
    let td := { st.tiles.getD tile default with rect := rect }
    let st2 : Rdp := { st1 with tiles := st.tiles.set tile td }
    let width := qFloor rect.width + 1
    let height := qFloor rect.height + 1
    let copyWidth := min width st.tex.width
    if td.bpp = 16 ∧ st.tex.bpp = 16 then
      ⟨{ st2 with
          tmem := tmemCopy st.tmem bus td.tmemAddr td.pitch st.tex.dramAddr
            st.tex.pitch (qFloor rect.c0.x) (qFloor rect.c0.y) 2 copyWidth height
          cmdlen := 0 },
        [.loadTileCopy .rgba5551 2 copyWidth height td.tmemAddr td.pitch
          st.tex.dramAddr st.tex.pitch], none⟩
    else if td.bpp = 8 ∧ st.tex.bpp = 8 then
      ⟨{ st2 with
          tmem := tmemCopy st.tmem bus td.tmemAddr td.pitch st.tex.dramAddr
            st.tex.pitch (qFloor rect.c0.x) (qFloor rect.c0.y) 1 copyWidth height
          cmdlen := 0 },
        [.loadTileCopy .i8fmt 1 copyWidth height td.tmemAddr td.pitch
          st.tex.dramAddr st.tex.pitch], none⟩
    else
      ⟨st2, [], some (.unsupportedBppCombination td.bpp st.tex.bpp)⟩
  else if opc = 0x35 then
    -- Set Tile
    let idx := getBits cmd 24 27
    let td := { st.tiles.getD idx default with
      colorFormat := parseColorFormat (getBits cmd 53 56)
      bpp := 4 * 2 ^ getBits cmd 51 53
      pitch := getBits cmd 41 50 * 8
      tmemAddr := getBits cmd 32 41 * 8
      palette := getBits cmd 20 24
      clamp := (getBit cmd 9, getBit cmd 19)
      mirror := (getBit cmd 8, getBit cmd 18)
      mask := (2 ^ getBits cmd 4 8 - 1, 2 ^ getBits cmd 14 18 - 1)
      shift := (getBits cmd 0 4, getBits cmd 10 14) }
    ⟨{ st1 with tiles := st.tiles.set idx td, cmdlen := 0 }, [], none⟩
  else if opc = 0x36 then
    -- Fill Rectangle
    let rect := QRect.fromBits (getBits cmd 12 24) (getBits cmd 0 12)
      (getBits cmd 44 56) (getBits cmd 32 44)
    match st.cycleMode with
    | .fill =>
      if st.fb.bpp = 0 then ⟨st1, [], some .divideByZero⟩
      else
        let bppconv := 32 / st.fb.bpp
        if bppconv = 0 then ⟨st1, [], some .divideByZero⟩
        else
          let rect2 : QRect :=
            ⟨⟨rect.c0.x / bppconv, rect.c0.y / bppconv⟩,
             ⟨sub32 ((rect.c1.x + qFromInt 1) / bppconv) (qFromInt 1),
              sub32 ((rect.c1.y + qFromInt 1) / bppconv) (qFromInt 1)⟩⟩
          if rect2.trunc ≠ rect2 then ⟨st1, [], some .fillRectNotAligned⟩
          else
            ⟨{ st1 with cmdlen := 0 },
              [.fillRect .bigEndian .rgba8888 rect2 .rgba8888 st.fillColor
                st.fb.dramAddr (320 / bppconv) 240 st.fb.pitch], none⟩
    | .one =>
      if rect.trunc ≠ rect then ⟨st1, [], some .fillRectNotAligned⟩
      else
        ⟨{ st1 with cmdlen := 0 },
          [.fillRectPP .littleEndian .rgba8888 rect .abgr8888 st.fillColor
            st.fb.dramAddr 320 240 st.fb.pitch], none⟩
    | _ => ⟨st1, [], some .unimplementedMode⟩
  else if opc = 0x37 then
    -- Set Fill Color
    ⟨{ st1 with fillColor := getBits cmd 0 32, cmdlen := 0 }, [], none⟩
  else if opc = 0x3C then
    -- Set Combine Mode
    ⟨{ st1 with
        pipeline := { st.pipeline with combineMode := cmd }
        cmdlen := 0 }, [], none⟩
  else if opc = 0x39 then
    -- Set Blend Color
    ⟨{ st1 with
        pipeline := { st.pipeline with blendColor := cmd % 4294967296 }
        cmdlen := 0 }, [], none⟩
  else
    -- unimplemented command: logged and discarded
    ⟨{ st1 with cmdlen := 0 }, [], none⟩

/-- A zero-filled bus read view, for concrete command submissions. -/
def busZ : Nat → Nat := fun _ => 0

/-- A register state with a 16-bpp, 8-texel-wide texture image and tile 1
configured at 16 bpp, pitch 16, tmem address 8. -/
def stLoad16 : Rdp :=
  { Rdp.new with
    tex := { ImageFormat.default with bpp := 16, width := 8, dramAddr := 100 }
    tiles := (List.replicate 8 TileDescriptor.default).set 1
      { TileDescriptor.default with bpp := 16, pitch := 16, tmemAddr := 8 } }

/-- A register state in Fill cycle mode with a 16-bpp, 320-wide framebuffer. -/
def stFill16 : Rdp :=
  { Rdp.new with
    fb := { ImageFormat.default with bpp := 16, width := 320 }
    cycleMode := .fill
    fillColor := 0xdeadbeef }

/-- The same framebuffer state in cycle mode One. -/
def stOne16 : Rdp := { stFill16 with cycleMode := .one }

/-- A Load Tile word targeting tile 1 with rect `(0,0)-(10.0,5.0)` (raw
`s1 = 40`, `t1 = 20`). -/
def loadCmd : Nat := (0x34 <<< 56) + (1 <<< 24) + (40 <<< 12) + 20

/-- A Fill Rectangle word with rect `(0,0)-(31.0,15.0)` (raw `x1 = 124`,
`y1 = 60`). -/
def fillCmd : Nat := (0x36 <<< 56) + (124 <<< 44) + (60 <<< 32)

/-- The same Fill Rectangle word with `x0 = 4` (pixel 1), which rescales to
a fractional coordinate when `bppconv = 2`. -/
def fillCmdBad : Nat := (0x36 <<< 56) + (124 <<< 44) + (60 <<< 32) + (4 <<< 12)

/-- A Set Other Modes word selecting cycle mode Fill (bits 52..54 = 3). -/
def fillModeWord : Nat := (0x2F <<< 56) + (3 <<< 52)

/-! Helper lemmas shared by the claim theorems. -/

theorem getBits_lt {x lo hi : Nat} : getBits x lo hi < 2 ^ (hi - lo) :=
  Nat.mod_lt _ (Nat.pos_pow_of_pos _ (by norm_num))

/-- C2: a submitted word whose first-buffered-word opcode (bits 56–62) is
outside the handler table leaves every register (fb, tex, tiles, clip,
fill_color, cycle_mode) and tmem unchanged and resets the pending length
to 0, with no collaborator invocation and no fault. -/
theorem unknown_opcode_no_state_change (st : Rdp) (bus : Nat → Nat) (cmd : Nat)
    (hop : getBits (bufWrite st.cmdbuf st.cmdlen cmd 0) 56 62 ∉ handlerOps) :
    let r := st.op bus cmd
    r.st.fb = st.fb ∧ r.st.tex = st.tex ∧ r.st.tiles = st.tiles ∧
      r.st.clip = st.clip ∧ r.st.fillColor = st.fillColor ∧
      r.st.cycleMode = st.cycleMode ∧ r.st.tmem = st.tmem ∧
      r.st.pipeline = st.pipeline ∧ r.st.cmdlen = 0 ∧
      r.effects = [] ∧ r.fault = none := by
  simp only [handlerOps, List.mem_cons, List.not_mem_nil, or_false, not_or] at hop
  obtain ⟨h1, h2, h3, h4, h5, h6, h7, h8, h9, h10, h11, h12⟩ := hop
  simp [Rdp.op, h1, h2, h3, h4, h5, h6, h7, h8, h9, h10, h11, h12]

/-- C2 witness: submitting the all-zero word (opcode 0x00) to a fresh core. -/
theorem unknown_opcode_no_state_change_witness :
    getBits (bufWrite Rdp.new.cmdbuf Rdp.new.cmdlen 0 0) 56 62 ∉ handlerOps ∧
      (let r := Rdp.new.op (fun _ => 0) 0;
       r.st.fb = Rdp.new.fb ∧ r.st.tex = Rdp.new.tex ∧ r.st.tiles = Rdp.new.tiles ∧
         r.st.clip = Rdp.new.clip ∧ r.st.fillColor = Rdp.new.fillColor ∧
         r.st.cycleMode = Rdp.new.cycleMode ∧ r.st.tmem = Rdp.new.tmem ∧
         r.st.pipeline = Rdp.new.pipeline ∧ r.st.cmdlen = 0 ∧
         r.effects = [] ∧ r.fault = none) :=
  ⟨by decide, unknown_opcode_no_state_change Rdp.new (fun _ => 0) 0 (by decide)⟩

/-- C1: Texture Rectangle (opcode 0x24) is a two-word command: the first
`submit` changes no register, records no framebuffer write, and retains the
pending buffer at length 1; the second `submit` invokes the slope-rectangle
rasterization using both buffered words and resets the pending length to 0. -/
theorem texture_rectangle_two_word (st : Rdp) (bus : Nat → Nat) (w1 w2 : Nat)
    (hlen : st.cmdlen = 0) (hop : getBits w1 56 62 = 0x24) :
    let r1 := st.op bus w1
    let r2 := r1.st.op bus w2
    let rect := QRect.fromBits (getBits w1 12 24) (getBits w1 0 12)
      (getBits w1 44 56) (getBits w1 32 44)
    let td := st.tiles.getD (getBits w1 24 27) default
    r1.st.fb = st.fb ∧ r1.st.tex = st.tex ∧ r1.st.tiles = st.tiles ∧
      r1.st.clip = st.clip ∧ r1.st.fillColor = st.fillColor ∧
      r1.st.cycleMode = st.cycleMode ∧ r1.st.tmem = st.tmem ∧
      r1.effects = [] ∧ r1.fault = none ∧ r1.st.cmdlen = 1 ∧
      r2.st.cmdlen = 0 ∧ r2.fault = none ∧
      r2.effects = [Effect.drawRectSlopes st.fb.colorFormat st.fb.bpp
        td.colorFormat td.bpp
        ((rect.setWidth (sub32 rect.width (qFromInt 1))).setHeight
          (sub32 rect.height (qFromInt 1)))
        td.tmemAddr td.pitch (qFloor td.rect.width + 1) (qFloor td.rect.height + 1)
        (toI16 (getBits w2 48 64)) (toI16 (getBits w2 32 48))
        (toI16 (getBits w2 16 32)) (toI16 (getBits w2 0 16))
        st.fb.dramAddr 320 240 st.fb.pitch] := by
  simp [Rdp.op, bufWrite, hlen, hop]

/-- C1 witness: a concrete Texture Rectangle pair on a fresh core. -/
theorem texture_rectangle_two_word_witness :
    Rdp.new.cmdlen = 0 ∧ getBits ((0x24 <<< 56) + (100 <<< 44) + (80 <<< 32) +
        (3 <<< 24)) 56 62 = 0x24 ∧
      (Rdp.new.op (fun _ => 0)
        ((0x24 <<< 56) + (100 <<< 44) + (80 <<< 32) + (3 <<< 24))).st.cmdlen = 1 ∧
      (Rdp.new.op (fun _ => 0)
        ((0x24 <<< 56) + (100 <<< 44) + (80 <<< 32) + (3 <<< 24))).effects = [] ∧
      ((Rdp.new.op (fun _ => 0)
          ((0x24 <<< 56) + (100 <<< 44) + (80 <<< 32) + (3 <<< 24))).st.op
        (fun _ => 0) 0x12345).st.cmdlen = 0 := by
  have h := texture_rectangle_two_word Rdp.new (fun _ => 0)
    ((0x24 <<< 56) + (100 <<< 44) + (80 <<< 32) + (3 <<< 24)) 0x12345 rfl (by decide)
  exact ⟨rfl, by decide, h.2.2.2.2.2.2.2.2.2.1, h.2.2.2.2.2.2.2.1,
    h.2.2.2.2.2.2.2.2.2.2.1⟩

/-- C3: after Set Tile (opcode 0x35), the target slot's wrap masks are
`2^n - 1` for the decoded 4-bit fields, its `tmem_addr` and `pitch` are
multiples of 8 bytes, and its `rect` field is unchanged. -/
theorem set_tile_invariants (st : Rdp) (bus : Nat → Nat) (cmd : Nat)
    (hlen : st.cmdlen = 0) (htiles : st.tiles.length = 8)
    (hop : getBits cmd 56 62 = 0x35) :
    let r := st.op bus cmd
    let td := r.st.tiles.getD (getBits cmd 24 27) default
    td.mask.1 = 2 ^ getBits cmd 4 8 - 1 ∧
      td.mask.2 = 2 ^ getBits cmd 14 18 - 1 ∧
      td.tmemAddr % 8 = 0 ∧ td.pitch % 8 = 0 ∧
      td.rect = (st.tiles.getD (getBits cmd 24 27) default).rect := by
  have hidx : getBits cmd 24 27 < st.tiles.length := by
    rw [htiles]; exact getBits_lt
  simp [Rdp.op, bufWrite, hlen, hop, List.getD, List.getElem?_set_self', hidx,
    Nat.mul_mod_left]

/-- C3 witness: a concrete Set Tile word with mask fields n₀ = 3, n₁ = 4,
pitch field 5 and tmem-address field 7 on a fresh core. -/
theorem set_tile_invariants_witness :
    Rdp.new.cmdlen = 0 ∧ Rdp.new.tiles.length = 8 ∧
      getBits ((0x35 <<< 56) + (2 <<< 24) + (5 <<< 41) + (7 <<< 32) +
        (3 <<< 4) + (4 <<< 14)) 56 62 = 0x35 ∧
      (let cmd := (0x35 <<< 56) + (2 <<< 24) + (5 <<< 41) + (7 <<< 32) +
        (3 <<< 4) + (4 <<< 14)
       let r := Rdp.new.op (fun _ => 0) cmd
       let td := r.st.tiles.getD (getBits cmd 24 27) default
       td.mask.1 = 2 ^ getBits cmd 4 8 - 1 ∧
         td.mask.2 = 2 ^ getBits cmd 14 18 - 1 ∧
         td.tmemAddr % 8 = 0 ∧ td.pitch % 8 = 0 ∧
         td.rect = (Rdp.new.tiles.getD (getBits cmd 24 27) default).rect) :=
  ⟨rfl, rfl, by decide,
    set_tile_invariants Rdp.new (fun _ => 0) _ rfl rfl (by decide)⟩

/-- C4: for Load Tile (opcode 0x34) with matching bpp, the copy handed to
the raster collaborator transfers `copy_width = min(floor(rect.width) + 1,
tex.width)` texels per row: a texture image narrower than the requested
load width truncates the copy to the image width. -/
theorem load_tile_copy_width_truncation (st : Rdp) (bus : Nat → Nat) (cmd : Nat)
    (hlen : st.cmdlen = 0) (hop : getBits cmd 56 62 = 0x34)
    (hbpp : ((st.tiles.getD (getBits cmd 24 27) default).bpp = 16 ∧ st.tex.bpp = 16) ∨
      ((st.tiles.getD (getBits cmd 24 27) default).bpp = 8 ∧ st.tex.bpp = 8)) :
    let r := st.op bus cmd
    let td := st.tiles.getD (getBits cmd 24 27) default
    let width := qFloor (sub32 (getBits cmd 12 24) (getBits cmd 44 56)) + 1
    let height := qFloor (sub32 (getBits cmd 0 12) (getBits cmd 32 44)) + 1
    r.fault = none ∧
      r.effects = [Effect.loadTileCopy
        (if td.bpp = 16 then .rgba5551 else .i8fmt) (td.bpp / 8)
        (min width st.tex.width) height td.tmemAddr td.pitch
        st.tex.dramAddr st.tex.pitch] ∧
      r.st.tmem = tmemCopy st.tmem bus td.tmemAddr td.pitch st.tex.dramAddr
        st.tex.pitch (qFloor (getBits cmd 44 56)) (qFloor (getBits cmd 32 44))
        (td.bpp / 8) (min width st.tex.width) height ∧
      (st.tex.width < width → min width st.tex.width = st.tex.width) := by
  rcases hbpp with ⟨ht, hx⟩ | ⟨ht, hx⟩ <;>
    simp only [List.getD, List.get?_eq_getElem?] at ht <;>
    refine ⟨?_, ?_, ?_, fun hw => Nat.min_eq_right (le_of_lt hw)⟩ <;>
    simp [Rdp.op, bufWrite, QRect.fromBits, QRect.width, QRect.height,
      List.getD, hlen, hop, ht, hx]

/-- C4 witness: Load Tile of a 10.0×5.0 rect (11×6 texels requested) from
an 8-texel-wide 16-bpp texture into a 16-bpp tile: 8 texels per row copied. -/
theorem load_tile_copy_width_truncation_witness :
    stLoad16.cmdlen = 0 ∧ getBits loadCmd 56 62 = 0x34 ∧
      ((stLoad16.tiles.getD (getBits loadCmd 24 27) default).bpp = 16 ∧
        stLoad16.tex.bpp = 16) ∧
      stLoad16.tex.width < qFloor (sub32 (getBits loadCmd 12 24)
        (getBits loadCmd 44 56)) + 1 ∧
      (let r := stLoad16.op busZ loadCmd
       let td := stLoad16.tiles.getD (getBits loadCmd 24 27) default
       let width := qFloor (sub32 (getBits loadCmd 12 24) (getBits loadCmd 44 56)) + 1
       let height := qFloor (sub32 (getBits loadCmd 0 12) (getBits loadCmd 32 44)) + 1
       r.fault = none ∧
         r.effects = [Effect.loadTileCopy
           (if td.bpp = 16 then .rgba5551 else .i8fmt) (td.bpp / 8)
           (min width stLoad16.tex.width) height td.tmemAddr td.pitch
           stLoad16.tex.dramAddr stLoad16.tex.pitch] ∧
         r.st.tmem = tmemCopy stLoad16.tmem busZ td.tmemAddr td.pitch
           stLoad16.tex.dramAddr stLoad16.tex.pitch
           (qFloor (getBits loadCmd 44 56)) (qFloor (getBits loadCmd 32 44))
           (td.bpp / 8) (min width stLoad16.tex.width) height ∧
         (stLoad16.tex.width < width → min width stLoad16.tex.width =
           stLoad16.tex.width)) :=
  ⟨rfl, by decide, ⟨by decide, rfl⟩, by decide,
    load_tile_copy_width_truncation stLoad16 busZ loadCmd rfl (by decide)
      (Or.inl ⟨by decide, rfl⟩)⟩

/-- C5: Load Tile with a tile/texture bpp combination other than 16/16 or
8/8 halts with the distinct unsupported-combination fault, and no byte of
tmem is modified; no collaborator copy is invoked. -/
theorem load_tile_bpp_mismatch_fault (st : Rdp) (bus : Nat → Nat) (cmd : Nat)
    (hlen : st.cmdlen = 0) (hop : getBits cmd 56 62 = 0x34)
    (hbpp : ¬ (((st.tiles.getD (getBits cmd 24 27) default).bpp = 16 ∧
        st.tex.bpp = 16) ∨
      ((st.tiles.getD (getBits cmd 24 27) default).bpp = 8 ∧ st.tex.bpp = 8))) :
    let r := st.op bus cmd
    r.fault = some (Fault.unsupportedBppCombination
      (st.tiles.getD (getBits cmd 24 27) default).bpp st.tex.bpp) ∧
      r.st.tmem = st.tmem ∧ r.effects = [] := by
  rw [not_or] at hbpp
  obtain ⟨h1, h2⟩ := hbpp
  simp only [List.getD, List.get?_eq_getElem?] at h1 h2
  simp [Rdp.op, bufWrite, List.getD, hlen, hop, h1, h2]

/-- C5 witness: Load Tile on a fresh core, whose default tile and texture
bpp are both 0 (neither 16/16 nor 8/8): the fault fires and tmem is intact. -/
theorem load_tile_bpp_mismatch_fault_witness :
    Rdp.new.cmdlen = 0 ∧ getBits loadCmd 56 62 = 0x34 ∧
      ¬ (((Rdp.new.tiles.getD (getBits loadCmd 24 27) default).bpp = 16 ∧
          Rdp.new.tex.bpp = 16) ∨
        ((Rdp.new.tiles.getD (getBits loadCmd 24 27) default).bpp = 8 ∧
          Rdp.new.tex.bpp = 8)) ∧
      (let r := Rdp.new.op busZ loadCmd
       r.fault = some (Fault.unsupportedBppCombination
         (Rdp.new.tiles.getD (getBits loadCmd 24 27) default).bpp Rdp.new.tex.bpp) ∧
         r.st.tmem = Rdp.new.tmem ∧ r.effects = []) :=
  ⟨rfl, by decide, by decide,
    load_tile_bpp_mismatch_fault Rdp.new busZ loadCmd rfl (by decide) (by decide)⟩

/-- C6: Fill Rectangle (opcode 0x36) in Fill cycle mode with exactly
aligned coordinates rescales the rect by `bppconv = 32/fb.bpp` as
`x0/=bppconv, y0/=bppconv, x1=((x1+1)/bppconv)-1, y1=((y1+1)/bppconv)-1`
and issues a flat fill (no pixel pipeline) of the stored fill color as
packed RGBA8888 over a big-endian word view of the framebuffer. -/
theorem fill_rectangle_fill_mode (st : Rdp) (bus : Nat → Nat) (cmd : Nat)
    (bppconv : Nat) (rect2 : QRect)
    (hlen : st.cmdlen = 0) (hop : getBits cmd 56 62 = 0x36)
    (hmode : st.cycleMode = .fill) (hbpp : st.fb.bpp ∈ [4, 8, 16, 32])
    (hconv : bppconv = 32 / st.fb.bpp)
    (hrect : rect2 = ⟨⟨getBits cmd 12 24 / bppconv, getBits cmd 0 12 / bppconv⟩,
      ⟨sub32 ((getBits cmd 44 56 + qFromInt 1) / bppconv) (qFromInt 1),
       sub32 ((getBits cmd 32 44 + qFromInt 1) / bppconv) (qFromInt 1)⟩⟩)
    (halign : QRect.trunc rect2 = rect2) :
    (st.op bus cmd).fault = none ∧ (st.op bus cmd).st.cmdlen = 0 ∧
      (st.op bus cmd).effects = [Effect.fillRect .bigEndian .rgba8888 rect2
        .rgba8888 st.fillColor st.fb.dramAddr (320 / bppconv) 240 st.fb.pitch] := by
  subst hconv
  subst hrect
  simp only [List.mem_cons, List.not_mem_nil, or_false] at hbpp
  rcases hbpp with h | h | h | h <;>
    simp [h] at halign <;>
    simp [Rdp.op, bufWrite, QRect.fromBits, hlen, hop, hmode, h, halign]

/-- C6 witness: fill rect `(0,0)-(31.0,15.0)` with `fb.bpp = 16`
(`bppconv = 2`): rescaled rect is raw `(0,0)-(60,28)`, pixels `(0,0)-(15,7)`. -/
theorem fill_rectangle_fill_mode_witness :
    stFill16.cmdlen = 0 ∧ getBits fillCmd 56 62 = 0x36 ∧
      stFill16.cycleMode = .fill ∧ stFill16.fb.bpp ∈ [4, 8, 16, 32] ∧
      (2 : Nat) = 32 / stFill16.fb.bpp ∧
      QRect.trunc ⟨⟨0, 0⟩, ⟨60, 28⟩⟩ = (⟨⟨0, 0⟩, ⟨60, 28⟩⟩ : QRect) ∧
      ((stFill16.op busZ fillCmd).fault = none ∧
        (stFill16.op busZ fillCmd).st.cmdlen = 0 ∧
        (stFill16.op busZ fillCmd).effects = [Effect.fillRect .bigEndian .rgba8888
          ⟨⟨0, 0⟩, ⟨60, 28⟩⟩ .rgba8888 stFill16.fillColor stFill16.fb.dramAddr
          (320 / 2) 240 stFill16.fb.pitch]) :=
  ⟨rfl, by decide, rfl, by decide, by decide, by decide,
    fill_rectangle_fill_mode stFill16 busZ fillCmd 2 ⟨⟨0, 0⟩, ⟨60, 28⟩⟩ rfl
      (by decide) rfl (by decide) (by decide) (by decide) (by decide)⟩

/-- C7: Fill Rectangle in Fill cycle mode whose rescaled rectangle retains
fractional bits (the coordinates were not aligned to `bppconv`) halts with
the fatal alignment fault and issues no framebuffer write. -/
theorem fill_rectangle_fill_mode_misaligned (st : Rdp) (bus : Nat → Nat)
    (cmd : Nat) (bppconv : Nat) (rect2 : QRect)
    (hlen : st.cmdlen = 0) (hop : getBits cmd 56 62 = 0x36)
    (hmode : st.cycleMode = .fill) (hbpp : st.fb.bpp ∈ [4, 8, 16, 32])
    (hconv : bppconv = 32 / st.fb.bpp)
    (hrect : rect2 = ⟨⟨getBits cmd 12 24 / bppconv, getBits cmd 0 12 / bppconv⟩,
      ⟨sub32 ((getBits cmd 44 56 + qFromInt 1) / bppconv) (qFromInt 1),
       sub32 ((getBits cmd 32 44 + qFromInt 1) / bppconv) (qFromInt 1)⟩⟩)
    (halign : QRect.trunc rect2 ≠ rect2) :
    (st.op bus cmd).fault = some Fault.fillRectNotAligned ∧
      (st.op bus cmd).effects = [] := by
  subst hconv
  subst hrect
  simp only [List.mem_cons, List.not_mem_nil, or_false] at hbpp
  rcases hbpp with h | h | h | h <;>
    simp [h] at halign <;>
    simp [Rdp.op, bufWrite, QRect.fromBits, hlen, hop, hmode, h, halign]

/-- C7 witness: fill rect with `x0 = pixel 1` and `fb.bpp = 16`: `x0`
rescales to raw 2 (fractional), the alignment fault fires, nothing drawn. -/
theorem fill_rectangle_fill_mode_misaligned_witness :
    stFill16.cmdlen = 0 ∧ getBits fillCmdBad 56 62 = 0x36 ∧
      stFill16.cycleMode = .fill ∧ stFill16.fb.bpp ∈ [4, 8, 16, 32] ∧
      (2 : Nat) = 32 / stFill16.fb.bpp ∧
      QRect.trunc ⟨⟨2, 0⟩, ⟨60, 28⟩⟩ ≠ (⟨⟨2, 0⟩, ⟨60, 28⟩⟩ : QRect) ∧
      ((stFill16.op busZ fillCmdBad).fault = some Fault.fillRectNotAligned ∧
        (stFill16.op busZ fillCmdBad).effects = []) :=
  ⟨rfl, by decide, rfl, by decide, by decide, by decide,
    fill_rectangle_fill_mode_misaligned stFill16 busZ fillCmdBad 2
      ⟨⟨2, 0⟩, ⟨60, 28⟩⟩ rfl (by decide) rfl (by decide) (by decide) (by decide)
      (by decide)⟩

/-- C8: Fill Rectangle in cycle mode One uses a little-endian RGBA8888 view
of the framebuffer, reinterprets the fill color as ABGR8888 (inverted
relative to Fill mode), applies the same inclusive-rect alignment check,
and issues the fill through the pixel-pipeline-aware routine. -/
theorem fill_rectangle_one_mode (st : Rdp) (bus : Nat → Nat) (cmd : Nat)
    (rect : QRect)
    (hlen : st.cmdlen = 0) (hop : getBits cmd 56 62 = 0x36)
    (hmode : st.cycleMode = .one)
    (hrect : rect = QRect.fromBits (getBits cmd 12 24) (getBits cmd 0 12)
      (getBits cmd 44 56) (getBits cmd 32 44)) :
    (QRect.trunc rect = rect →
      (st.op bus cmd).fault = none ∧ (st.op bus cmd).st.cmdlen = 0 ∧
        (st.op bus cmd).effects = [Effect.fillRectPP .littleEndian .rgba8888
          rect .abgr8888 st.fillColor st.fb.dramAddr 320 240 st.fb.pitch]) ∧
    (QRect.trunc rect ≠ rect →
      (st.op bus cmd).fault = some Fault.fillRectNotAligned ∧
        (st.op bus cmd).effects = []) := by
  subst hrect
  constructor <;> intro h <;> simp only [QRect.fromBits] at h <;>
    simp [Rdp.op, bufWrite, QRect.fromBits, hlen, hop, hmode, h]

/-- C8 witness: the One-mode fill of rect `(0,0)-(31.0,15.0)` on a 16-bpp
framebuffer: pipeline-aware fill with the ABGR8888-reinterpreted color. -/
theorem fill_rectangle_one_mode_witness :
    stOne16.cmdlen = 0 ∧ getBits fillCmd 56 62 = 0x36 ∧
      stOne16.cycleMode = .one ∧
      ((QRect.trunc (QRect.fromBits (getBits fillCmd 12 24) (getBits fillCmd 0 12)
          (getBits fillCmd 44 56) (getBits fillCmd 32 44)) =
        QRect.fromBits (getBits fillCmd 12 24) (getBits fillCmd 0 12)
          (getBits fillCmd 44 56) (getBits fillCmd 32 44) →
        (stOne16.op busZ fillCmd).fault = none ∧
          (stOne16.op busZ fillCmd).st.cmdlen = 0 ∧
          (stOne16.op busZ fillCmd).effects = [Effect.fillRectPP .littleEndian
            .rgba8888 (QRect.fromBits (getBits fillCmd 12 24) (getBits fillCmd 0 12)
              (getBits fillCmd 44 56) (getBits fillCmd 32 44)) .abgr8888
            stOne16.fillColor stOne16.fb.dramAddr 320 240 stOne16.fb.pitch]) ∧
      (QRect.trunc (QRect.fromBits (getBits fillCmd 12 24) (getBits fillCmd 0 12)
          (getBits fillCmd 44 56) (getBits fillCmd 32 44)) ≠
        QRect.fromBits (getBits fillCmd 12 24) (getBits fillCmd 0 12)
          (getBits fillCmd 44 56) (getBits fillCmd 32 44) →
        (stOne16.op busZ fillCmd).fault = some Fault.fillRectNotAligned ∧
          (stOne16.op busZ fillCmd).effects = [])) :=
  ⟨rfl, by decide, rfl,
    fill_rectangle_one_mode stOne16 busZ fillCmd _ rfl (by decide) rfl rfl⟩

/-- C9: Fill Rectangle in cycle mode Two or Copy halts with the distinct
unsupported-mode fault: it is surfaced in the result (not swallowed), no
fill is issued, and the fault value differs from every other fault. -/
theorem fill_rectangle_unsupported_mode (st : Rdp) (bus : Nat → Nat) (cmd : Nat)
    (hlen : st.cmdlen = 0) (hop : getBits cmd 56 62 = 0x36)
    (hmode : st.cycleMode = .two ∨ st.cycleMode = .copy) :
    (st.op bus cmd).fault = some Fault.unimplementedMode ∧
      (st.op bus cmd).effects = [] ∧ (st.op bus cmd).fault ≠ none ∧
      Fault.unimplementedMode ≠ Fault.fillRectNotAligned ∧
      Fault.unimplementedMode ≠ Fault.divideByZero ∧
      ∀ a b : Nat, Fault.unimplementedMode ≠ Fault.unsupportedBppCombination a b := by
  rcases hmode with h | h <;> simp [Rdp.op, bufWrite, hlen, hop, h]

/-- C9 witness: Fill Rectangle submitted in cycle mode Two. -/
theorem fill_rectangle_unsupported_mode_witness :
    { stFill16 with cycleMode := .two }.cmdlen = 0 ∧
      getBits fillCmd 56 62 = 0x36 ∧
      ({ stFill16 with cycleMode := .two }.cycleMode = CycleMode.two ∨
        { stFill16 with cycleMode := .two }.cycleMode = CycleMode.copy) ∧
      (({ stFill16 with cycleMode := .two }.op busZ fillCmd).fault =
        some Fault.unimplementedMode ∧
        ({ stFill16 with cycleMode := .two }.op busZ fillCmd).effects = [] ∧
        ({ stFill16 with cycleMode := .two }.op busZ fillCmd).fault ≠ none ∧
        Fault.unimplementedMode ≠ Fault.fillRectNotAligned ∧
        Fault.unimplementedMode ≠ Fault.divideByZero ∧
        ∀ a b : Nat, Fault.unimplementedMode ≠ Fault.unsupportedBppCombination a b) :=
  ⟨rfl, by decide, Or.inl rfl,
    fill_rectangle_unsupported_mode { stFill16 with cycleMode := .two } busZ
      fillCmd rfl (by decide) (Or.inl rfl)⟩

/-- C10: Fill Rectangle in Fill mode computes `bppconv = 32/fb.bpp` without
guarding `fb.bpp = 0`; a freshly constructed core has `fb.bpp = 0`, so after
only a Set Other Modes selecting Fill mode, a Fill Rectangle divides by
zero; with `fb.bpp ∈ {4,8,16,32}` the division fault never occurs. -/
theorem fill_rectangle_bpp_zero_division (bus : Nat → Nat) (cmd : Nat)
    (hop : getBits cmd 56 62 = 0x36) :
    (Rdp.new.op bus fillModeWord).st.fb.bpp = 0 ∧
      (Rdp.new.op bus fillModeWord).st.cycleMode = .fill ∧
      ((Rdp.new.op bus fillModeWord).st.op bus cmd).fault =
        some Fault.divideByZero ∧
      (∀ st : Rdp, st.cmdlen = 0 → st.cycleMode = .fill →
        st.fb.bpp ∈ [4, 8, 16, 32] →
        (st.op bus cmd).fault ≠ some Fault.divideByZero) := by
  have h1 : getBits fillModeWord 56 62 = 0x2F := by decide
  have h2 : getBits fillModeWord 52 54 = 3 := by decide
  refine ⟨rfl, rfl, ?_, ?_⟩
  · simp [Rdp.op, bufWrite, Rdp.new, ImageFormat.default, h1, h2, hop]
  · intro st hl hm hbpp
    simp only [List.mem_cons, List.not_mem_nil, or_false] at hbpp
    rcases hbpp with h | h | h | h <;>
      simp [Rdp.op, bufWrite, hl, hm, hop, h] <;> split <;> simp

/-- C10 witness: the concrete fresh-core sequence Set Other Modes (Fill)
then Fill Rectangle reaches the division-by-zero fault. -/
theorem fill_rectangle_bpp_zero_division_witness :
    getBits fillCmd 56 62 = 0x36 ∧
      ((Rdp.new.op busZ fillModeWord).st.op busZ fillCmd).fault =
        some Fault.divideByZero :=
  ⟨by decide, (fill_rectangle_bpp_zero_division busZ fillCmd (by decide)).2.2.1⟩

end R64
